import Mathlib

/-!
Shallow embedding of the syslog-ng statistics registry (`stats.c`).

The registry is a de-duplicating, reference-counted store of counter
clusters keyed by `(source, id, instance)`.  The hash table is modelled
as a list of clusters looked up by the key-equality predicate of
`stats_counter_equal`; machine integers (`gint`, `time_t`) are modelled
as `Int`, counter cells (`guint` values) as `Nat`, and `g_assert`
failures as the `.error` branch of `Except Unit`.
-/

namespace SyslogStats

/-- `StatsCounterType` from `stats.h`: the closed counter-kind enum
(`SC_TYPE_DROPPED`, `SC_TYPE_PROCESSED`, `SC_TYPE_STORED`,
`SC_TYPE_SUPPRESSED`, `SC_TYPE_STAMP`). -/
inductive StatsCounterType
  | dropped
  | processed
  | stored
  | suppressed
  | stamp
deriving DecidableEq, Repr, Fintype

/-- Ordinal of a counter type, i.e. its value as a C enum constant. -/
def StatsCounterType.toIdx : StatsCounterType → Nat
  | .dropped => 0
  | .processed => 1
  | .stored => 2
  | .suppressed => 3
  | .stamp => 4

/-- `tag_names[SC_TYPE_MAX]` from `stats.c`. -/
def tag_names : List String :=
  ["dropped", "processed", "stored", "suppressed", "stamp"]

/-- `stats_get_tag_name` from `stats.c`: `tag_names[type]`. -/
def stats_get_tag_name (t : StatsCounterType) : String :=
  tag_names.getD t.toIdx ""

/-- `source_names[SCS_MAX]` from `stats.c`. -/
def source_names : List String :=
  ["none", "file", "pipe", "tcp", "udp", "tcp6", "udp6", "unix-stream",
   "unix-dgram", "syslog", "network", "internal", "logstore", "program",
   "sql", "sun-streams", "usertty", "group", "center", "host", "global",
   "mongodb", "class", "rule_id", "tag", "severity", "facility", "sender",
   "smtp", "amqp", "stomp", "redis", "snmp"]

/-- Modelled from the spec: `SCS_SOURCE_MASK` from the missing `stats.h`
header.  A ComponentKind is a packed integer whose low bits encode the
source enum index and whose high bits carry the two direction flags. -/
def SCS_SOURCE_MASK : Nat := 0xff

/-- Modelled from the spec: the `SCS_SOURCE` (`IS_SOURCE`) direction flag
bit from the missing `stats.h` header. -/
def SCS_SOURCE : Nat := 0x100

/-- Modelled from the spec: the `SCS_DESTINATION` (`IS_DESTINATION`)
direction flag bit from the missing `stats.h` header. -/
def SCS_DESTINATION : Nat := 0x200

/-- Modelled from the spec: `SCS_GROUP`, the enum index of the `group`
meta-kind; position 17 in the closed `source_names` list of `stats.c`. -/
def SCS_GROUP : Nat := 17

/-- `stats_get_direction_name` from `stats.c`. -/
def stats_get_direction_name (source : Nat) : String :=
  if source &&& SCS_SOURCE ≠ 0 then "src."
  else if source &&& SCS_DESTINATION ≠ 0 then "dst."
  else ""

/-- `stats_get_source_name` from `stats.c`: `source_names[source & SCS_SOURCE_MASK]`. -/
def stats_get_source_name (source : Nat) : String :=
  source_names.getD (source &&& SCS_SOURCE_MASK) ""

/-- `stats_get_direction_and_source_name` from `stats.c`; `none` models
the `g_assert_not_reached` hit when a `group` kind carries neither
direction flag. -/
def stats_get_direction_and_source_name (source : Nat) : Option String :=
  if source &&& SCS_SOURCE_MASK = SCS_GROUP then
    if source &&& SCS_SOURCE ≠ 0 then some "source"
    else if source &&& SCS_DESTINATION ≠ 0 then some "destination"
    else none
  else
    some (stats_get_direction_name source ++ stats_get_source_name source)

/-- `StatsOptions` from `stats.h` as used by `stats.c`: the three
recognized fields. -/
structure StatsOptions where
  level : Int
  log_freq : Int
  lifetime : Int
deriving DecidableEq, Repr

/-- `stats_options_defaults` from `stats.c`. -/
def stats_options_defaults : StatsOptions :=
  { level := 0, log_freq := 600, lifetime := 600 }

/-- `StatsCluster` from `stats.h` as used by `stats.c`.  The C field
`instance` is a Lean keyword and is rendered `instance_`; `counters` is
the fixed array of cells indexed by counter type, each holding its
current value. -/
structure StatsCluster where
  source : Nat
  id : String
  instance_ : String
  dynamic : Bool
  ref_cnt : Int
  live_mask : Nat
  counters : StatsCounterType → Nat
deriving DecidableEq

/-- A cluster key: the triple compared by `stats_counter_equal`. -/
abbrev ClusterKey := Nat × String × String

/-- The key of a cluster. -/
def keyOf (sc : StatsCluster) : ClusterKey :=
  (sc.source, sc.id, sc.instance_)

/-- `stats_counter_equal` from `stats.c`: componentwise equality of
`source`, `id` and `instance`. -/
def stats_counter_equal (sc1 sc2 : StatsCluster) : Bool :=
  sc1.source == sc2.source && sc1.id == sc2.id && sc1.instance_ == sc2.instance_

/-- A handle to the cell `&sc->counters[type]`: the owning cluster's key
together with the counter type. -/
abbrev CounterHandle := ClusterKey × StatsCounterType

/-- `g_hash_table_lookup` on `counter_hash` with a key cluster holding
`(source, id, instance)`: first cluster whose key matches. -/
def lookupCluster (regs : List StatsCluster) (k : ClusterKey) : Option StatsCluster :=
  regs.find? (fun sc => keyOf sc == k)

/-- In-place mutation through the pointer returned by the hash lookup:
rewrite the first cluster whose key matches. -/
def updateCluster (k : ClusterKey) (g : StatsCluster → StatsCluster) :
    List StatsCluster → List StatsCluster
  | [] => []
  | sc :: rest =>
      if keyOf sc == k then g sc :: rest else sc :: updateCluster k g rest

/-- NULL-pointer normalization in `stats_add_counter` and
`stats_unregister_counter`: `if (!id) id = "";`. -/
def normalize : Option String → String
  | none => ""
  | some s => s

/-- `stats_check_level` from `stats.c`: with options installed the gate
is `stats_options->level >= level`, otherwise `level == 0`. -/
def stats_check_level (stats_options : Option StatsOptions) (level : Int) : Bool :=
  match stats_options with
  | some o => o.level ≥ level
  | none => level == 0

/-- The cluster built by `g_new0` plus the explicit field assignments in
`stats_add_counter`: zeroed, `ref_cnt = 1`. -/
def newCluster (source : Nat) (id inst : String) : StatsCluster :=
  { source := source, id := id, instance_ := inst, dynamic := false,
    ref_cnt := 1, live_mask := 0, counters := fun _ => 0 }

/-- Result of `stats_add_counter`: `found = none` models the NULL return
(in which case `*new` is not written); otherwise the returned cluster as
stored after the call, paired with the value written to `*new`. -/
structure AddCounterResult where
  found : Option (StatsCluster × Bool)
  registry : List StatsCluster
deriving DecidableEq

/-- `stats_add_counter` from `stats.c`. -/
def stats_add_counter (opts : Option StatsOptions) (regs : List StatsCluster)
    (stats_level : Int) (source : Nat) (id inst : Option String) : AddCounterResult :=
  if !stats_check_level opts stats_level then
    { found := none, registry := regs }
  else
    let id := normalize id
    let inst := normalize inst
    match lookupCluster regs (source, id, inst) with
    | none =>
        let sc := newCluster source id inst
        { found := some (sc, true), registry := sc :: regs }
    | some sc =>
        let nw := sc.ref_cnt == 0
        let sc' := { sc with ref_cnt := sc.ref_cnt + 1 }
        { found := some (sc', nw),
          registry := updateCluster (source, id, inst)
            (fun c => { c with ref_cnt := c.ref_cnt + 1 }) regs }

/-- Result of `stats_register_counter`: the out-parameter `*counter`
(`none` models NULL) and the registry after the call. -/
structure RegisterResult where
  counter : Option CounterHandle
  registry : List StatsCluster
deriving DecidableEq

/-- `stats_register_counter` from `stats.c`.  `.error` models the
`g_assert(stats_locked)` failure; the `type < SC_TYPE_MAX` assertion
holds by typing. -/
def stats_register_counter (stats_locked : Bool) (opts : Option StatsOptions)
    (regs : List StatsCluster) (stats_level : Int) (source : Nat)
    (id inst : Option String) (type : StatsCounterType) :
    Except Unit RegisterResult :=
  if !stats_locked then .error () else
  let r := stats_add_counter opts regs stats_level source id inst
  match r.found with
  | none => .ok { counter := none, registry := r.registry }
  | some (sc, _) =>
      .ok { counter := some (keyOf sc, type),
            registry := updateCluster (keyOf sc)
              (fun c => { c with live_mask := c.live_mask ||| (1 <<< type.toIdx) })
              r.registry }

/-- Result of `stats_register_dynamic_counter`: the returned
`StatsCluster *` as stored after the call (`none` models NULL), the
out-parameters `*counter` and `*new` (`new = none` models the
uninitialized `local_new` copied out on the level-gated path), and the
registry after the call. -/
structure DynRegisterResult where
  ret : Option StatsCluster
  counter : Option CounterHandle
  new : Option Bool
  registry : List StatsCluster
deriving DecidableEq

/-- `stats_register_dynamic_counter` from `stats.c`.  `.error` models
the `g_assert(stats_locked)` failure and the `g_assert_not_reached` hit
when the cluster existed with nonzero `ref_cnt` and was not dynamic. -/
def stats_register_dynamic_counter (stats_locked : Bool) (opts : Option StatsOptions)
    (regs : List StatsCluster) (stats_level : Int) (source : Nat)
    (id inst : Option String) (type : StatsCounterType) :
    Except Unit DynRegisterResult :=
  if !stats_locked then .error () else
  let r := stats_add_counter opts regs stats_level source id inst
  match r.found with
  | none => .ok { ret := none, counter := none, new := none, registry := r.registry }
  | some (sc, local_new) =>
      if !local_new && !sc.dynamic then .error () else
      let g := fun c : StatsCluster =>
        { c with dynamic := true, live_mask := c.live_mask ||| (1 <<< type.toIdx) }
      .ok { ret := some (g sc), counter := some (keyOf sc, type),
            new := some local_new,
            registry := updateCluster (keyOf sc) g r.registry }

/-- `stats_register_associated_counter` from `stats.c`.  The borrowed
`StatsCluster *` is rendered as the key of the cluster it points to; a
dangling pointer (no such cluster) is not representable and is treated
as a contract violation, as is the `g_assert(sc->dynamic)` failure. -/
def stats_register_associated_counter (stats_locked : Bool)
    (regs : List StatsCluster) (sc : Option ClusterKey) (type : StatsCounterType) :
    Except Unit RegisterResult :=
  if !stats_locked then .error () else
  match sc with
  | none => .ok { counter := none, registry := regs }
  | some k =>
      match lookupCluster regs k with
      | none => .error ()
      | some c =>
          if !c.dynamic then .error () else
          .ok { counter := some (k, type),
                registry := updateCluster k
                  (fun c => { c with
                      live_mask := c.live_mask ||| (1 <<< type.toIdx),
                      ref_cnt := c.ref_cnt + 1 }) regs }

/-- Result of the two unregister calls: the out-parameter `*counter`
after the call and the registry after the call. -/
structure UnregisterResult where
  counter : Option CounterHandle
  registry : List StatsCluster
deriving DecidableEq

/-- `stats_unregister_counter` from `stats.c`.  `.error` models the
`g_assert(stats_locked)` failure and the failure of
`g_assert(sc && (sc->live_mask & (1 << type)) && &sc->counters[type] == (*counter))`. -/
def stats_unregister_counter (stats_locked : Bool) (regs : List StatsCluster)
    (source : Nat) (id inst : Option String) (type : StatsCounterType)
    (counter : Option CounterHandle) : Except Unit UnregisterResult :=
  if !stats_locked then .error () else
  match counter with
  | none => .ok { counter := none, registry := regs }
  | some h =>
      let id := normalize id
      let inst := normalize inst
      match lookupCluster regs (source, id, inst) with
      | none => .error ()
      | some sc =>
          if sc.live_mask &&& (1 <<< type.toIdx) ≠ 0 ∧ h = (keyOf sc, type) then
            .ok { counter := none,
                  registry := updateCluster (source, id, inst)
                    (fun c => { c with ref_cnt := c.ref_cnt - 1 }) regs }
          else .error ()

/-- `stats_unregister_dynamic_counter` from `stats.c`.  Unlike
`stats_unregister_counter` it does not write NULL into `*counter`. -/
def stats_unregister_dynamic_counter (stats_locked : Bool)
    (regs : List StatsCluster) (sc : Option ClusterKey) (type : StatsCounterType)
    (counter : Option CounterHandle) : Except Unit UnregisterResult :=
  if !stats_locked then .error () else
  match sc with
  | none => .ok { counter := counter, registry := regs }
  | some k =>
      match lookupCluster regs k with
      | none => .error ()
      | some c =>
          if c.live_mask &&& (1 <<< type.toIdx) ≠ 0 ∧ counter = some ((k, type) : CounterHandle) then
            .ok { counter := counter,
                  registry := updateCluster k
                    (fun c => { c with ref_cnt := c.ref_cnt - 1 }) regs }
          else .error ()

/-- `stats_foreach_cluster` from `stats.c`, with the callback plus
`user_data` style rendered as a fold.  `.error` models the
`g_assert(stats_locked)` failure. -/
def stats_foreach_cluster {α : Type} (stats_locked : Bool)
    (regs : List StatsCluster) (func : StatsCluster → α → α) (user_data : α) :
    Except Unit α :=
  if !stats_locked then .error () else
  .ok (regs.foldl (fun a sc => func sc a) user_data)

/-- `stats_foreach_cluster_remove` from `stats.c`: removes every cluster
for which the callback returns true, threading the callback state.  Note
that the C function performs no `g_assert(stats_locked)` check. -/
def stats_foreach_cluster_remove {σ : Type} (stats_locked : Bool)
    (regs : List StatsCluster) (func : StatsCluster → σ → Bool × σ) (user_data : σ) :
    Except Unit (List StatsCluster × σ) :=
  let _ := stats_locked
  .ok (go regs user_data)
where
  go : List StatsCluster → σ → List StatsCluster × σ
    | [], s => ([], s)
    | sc :: rest, s =>
        let (rm, s') := func sc s
        let (rest', s'') := go rest s'
        (if rm then rest' else sc :: rest', s'')

/-- The list of counter types in enum order, as iterated by
`stats_cluster_foreach_counter`. -/
def allCounterTypes : List StatsCounterType :=
  [.dropped, .processed, .stored, .suppressed, .stamp]

/-- Modelled from the spec: `stats_cluster_foreach_counter` is declared
in the missing `stats.h`; per §4.2 it iterates the `(kind, cell)` pairs
whose bits are in `live_mask`, in enum order. -/
def stats_cluster_foreach_counter {α : Type} (sc : StatsCluster)
    (func : StatsCluster → StatsCounterType → Nat → α → α) (user_data : α) : α :=
  allCounterTypes.foldl
    (fun a t =>
      if sc.live_mask &&& (1 <<< t.toIdx) ≠ 0 then func sc t (sc.counters t) a else a)
    user_data

/-- `stats_foreach_counter` from `stats.c`: asserts the lock, then walks
every live counter of every cluster through `stats_foreach_cluster`. -/
def stats_foreach_counter {α : Type} (stats_locked : Bool)
    (regs : List StatsCluster) (func : StatsCluster → StatsCounterType → Nat → α → α)
    (user_data : α) : Except Unit α :=
  if !stats_locked then .error () else
  stats_foreach_cluster stats_locked regs
    (fun sc a => stats_cluster_foreach_counter sc func a) user_data

/-- An `EVTTAG` as produced by `evt_tag_printf(name, fmt, ...)`. -/
structure EVTTAG where
  name : String
  value : String
deriving DecidableEq, Repr

/-- An `EVTREC` as produced by `msg_event_create`: its title and the
tags appended so far. -/
structure EVTREC where
  title : String
  tags : List EVTTAG
deriving DecidableEq, Repr

/-- `stats_log_format_counter` from `stats.c`: builds the tag
`evt_tag_printf(tag_names[type], "%s(%s%s%s)=%u", dir_and_source, id,
(id[0] && instance[0]) ? "," : "", instance, value)`.  `.error` models
the `g_assert_not_reached` inside `stats_get_direction_and_source_name`. -/
def stats_log_format_counter (sc : StatsCluster) (type : StatsCounterType) :
    Except Unit EVTTAG :=
  match stats_get_direction_and_source_name sc.source with
  | none => .error ()
  | some dirsrc =>
      .ok { name := stats_get_tag_name type,
            value := dirsrc ++ "(" ++ sc.id ++
              (if !sc.id.isEmpty && !sc.instance_.isEmpty then "," else "") ++
              sc.instance_ ++ ")=" ++ toString (sc.counters type) }

/-- `stats_log_format_cluster` from `stats.c`: formats every live
counter of the cluster through `stats_cluster_foreach_counter`,
collecting the tags appended to the event record. -/
def stats_log_format_cluster (sc : StatsCluster) : Except Unit (List EVTTAG) :=
  stats_cluster_foreach_counter sc
    (fun sc t _v acc =>
      match acc with
      | .error e => .error e
      | .ok tags =>
          match stats_log_format_counter sc t with
          | .error e => .error e
          | .ok tag => .ok (tags ++ [tag]))
    (.ok [])

/-- `stats_counter_is_expired` from `stats.c`. -/
def stats_counter_is_expired (opts : StatsOptions) (sc : StatsCluster) (now : Int) : Bool :=
  if !sc.dynamic then false
  else if sc.ref_cnt > 0 then false
  else if sc.live_mask &&& (1 <<< StatsCounterType.stamp.toIdx) = 0 then false
  else decide ((sc.counters .stamp : Int) ≤ now - opts.lifetime)

/-- `StatsTimerState` from `stats.c` (minus the `now` snapshot, which is
passed separately); `stats_event = none` models the NULL event record of
a non-publishing pass. -/
structure StatsTimerState where
  oldest_counter : Int
  dropped_counters : Int
  stats_event : Option EVTREC
deriving DecidableEq, Repr

/-- `stats_prune_counter` from `stats.c`. -/
def stats_prune_counter (opts : StatsOptions) (now : Int) (sc : StatsCluster)
    (st : StatsTimerState) : Bool × StatsTimerState :=
  let expired := stats_counter_is_expired opts sc now
  if expired then
    let tstamp : Int := sc.counters .stamp
    (true,
     { st with
        oldest_counter :=
          if st.oldest_counter == 0 || st.oldest_counter > tstamp then tstamp
          else st.oldest_counter,
        dropped_counters := st.dropped_counters + 1 })
  else (false, st)

/-- `stats_format_and_prune_cluster` from `stats.c`: format the cluster
into the event record (a no-op append when the record is NULL), then
decide and record expiration. -/
def stats_format_and_prune_cluster (opts : StatsOptions) (now : Int)
    (sc : StatsCluster) (st : StatsTimerState) :
    Except Unit (Bool × StatsTimerState) :=
  match stats_log_format_cluster sc with
  | .error e => .error e
  | .ok tags =>
      let st := { st with
        stats_event := st.stats_event.map (fun e => { e with tags := e.tags ++ tags }) }
      .ok (stats_prune_counter opts now sc st)

/-- Observable outcome of `stats_publish_and_prune_counters`: the
registry left behind, the `"Log statistics"` record sent by
`msg_event_send` (`none` when publishing is disabled), and the payload
`(dropped, oldest-timestamp)` of the pruning notice (`none` when no
cluster was dropped). -/
structure PublishResult where
  registry : List StatsCluster
  logStatisticsEvent : Option EVTREC
  pruneNotice : Option (Int × Int)
deriving DecidableEq

/-- The callback `stats_format_and_prune_cluster` as passed to
`stats_foreach_cluster_remove`, threading a possible `g_assert` failure
through the walk (once an assertion fires the rest of the walk is
irrelevant: the process would have aborted). -/
def publish_prune_step (opts : StatsOptions) (now : Int) (sc : StatsCluster)
    (s : Except Unit StatsTimerState) : Bool × Except Unit StatsTimerState :=
  match s with
  | .error e => (false, Except.error e)
  | .ok st =>
      match stats_format_and_prune_cluster opts now sc st with
      | .error e => (false, Except.error e)
      | .ok (rm, st') => (rm, Except.ok st')

/-- The initial `StatsTimerState` set up by
`stats_publish_and_prune_counters`: zero statistics and, when
publishing, the `"Log statistics"` record of `msg_event_create`. -/
def publish_initial_state (opts : StatsOptions) : StatsTimerState :=
  { oldest_counter := 0, dropped_counters := 0,
    stats_event :=
      if opts.log_freq > 0 then some { title := "Log statistics", tags := [] }
      else none }

/-- `stats_publish_and_prune_counters` from `stats.c`: one pass over the
registry through `stats_foreach_cluster_remove` under the lock, failure
of any `g_assert` along the way modelled as `.error`. -/
def stats_publish_and_prune_counters (opts : StatsOptions) (now : Int)
    (regs : List StatsCluster) : Except Unit PublishResult :=
  let publish := opts.log_freq > 0
  let st0 := publish_initial_state opts
  match stats_foreach_cluster_remove true regs (publish_prune_step opts now) (.ok st0) with
  | .error e => .error e
  | .ok (regs', s) =>
      match s with
      | .error e => .error e
      | .ok st =>
          .ok { registry := regs',
                logStatisticsEvent := if publish then st.stats_event else none,
                pruneNotice :=
                  if st.dropped_counters > 0 then
                    some (st.dropped_counters, st.oldest_counter)
                  else none }

/-- The effective timer frequency computed by `stats_timer_reinit` from
`stats.c` and handed to `stats_timer_init`. -/
def stats_timer_reinit_freq (opts : StatsOptions) : Int :=
  let freq := opts.log_freq
  if freq == 0 then (if opts.lifetime ≤ 1 then 1 else opts.lifetime / 2) else freq

/-- Reference recursion equivalent to the walk
`stats_foreach_cluster_remove(stats_format_and_prune_cluster, &st)`,
used to reason about `stats_publish_and_prune_counters`. -/
def prune_loop (opts : StatsOptions) (now : Int) :
    List StatsCluster → StatsTimerState →
    Except Unit (List StatsCluster × StatsTimerState)
  | [], st => .ok ([], st)
  | sc :: rest, st =>
      match stats_format_and_prune_cluster opts now sc st with
      | .error e => .error e
      | .ok (rm, st') =>
          match prune_loop opts now rest st' with
          | .error e => .error e
          | .ok (rest', st'') => .ok (if rm then rest' else sc :: rest', st'')

/-- One operation of the registration / unregistration API, performed
under the registry lock.  Borrowed `StatsCluster *` arguments are
rendered as the key of the cluster they point to. -/
inductive StatsOp
  | register (stats_level : Int) (source : Nat) (id inst : Option String)
      (type : StatsCounterType)
  | registerDyn (stats_level : Int) (source : Nat) (id inst : Option String)
      (type : StatsCounterType)
  | registerAssoc (sc : Option ClusterKey) (type : StatsCounterType)
  | unregister (source : Nat) (id inst : Option String) (type : StatsCounterType)
      (counter : Option CounterHandle)
  | unregisterDyn (sc : Option ClusterKey) (type : StatsCounterType)
      (counter : Option CounterHandle)

/-- Effect of one operation on the registry, under the lock. -/
def runOp (opts : Option StatsOptions) (op : StatsOp) (regs : List StatsCluster) :
    Except Unit (List StatsCluster) :=
  match op with
  | .register lvl src id inst ty =>
      (stats_register_counter true opts regs lvl src id inst ty).map RegisterResult.registry
  | .registerDyn lvl src id inst ty =>
      (stats_register_dynamic_counter true opts regs lvl src id inst ty).map DynRegisterResult.registry
  | .registerAssoc sc ty =>
      (stats_register_associated_counter true regs sc ty).map RegisterResult.registry
  | .unregister src id inst ty ctr =>
      (stats_unregister_counter true regs src id inst ty ctr).map UnregisterResult.registry
  | .unregisterDyn sc ty ctr =>
      (stats_unregister_dynamic_counter true regs sc ty ctr).map UnregisterResult.registry

/-- Effect of a sequence of operations on the registry. -/
def runOps (opts : Option StatsOptions) :
    List StatsOp → List StatsCluster → Except Unit (List StatsCluster)
  | [], regs => .ok regs
  | op :: ops, regs =>
      match runOp opts op regs with
      | .error e => .error e
      | .ok regs' => runOps opts ops regs'

/-- Registration-count delta one operation applies to the cluster with
key `k` when it takes effect: `+1` for a registration that materializes,
`-1` for an unregistration that is not a tolerated no-op, `0` otherwise. -/
def opDelta (opts : Option StatsOptions) (op : StatsOp) (k : ClusterKey) : Int :=
  match op with
  | .register lvl src id inst _ty =>
      if stats_check_level opts lvl ∧ k = (src, normalize id, normalize inst) then 1 else 0
  | .registerDyn lvl src id inst _ty =>
      if stats_check_level opts lvl ∧ k = (src, normalize id, normalize inst) then 1 else 0
  | .registerAssoc sc _ty =>
      match sc with
      | none => 0
      | some k' => if k = k' then 1 else 0
  | .unregister src id inst _ty ctr =>
      match ctr with
      | none => 0
      | some _ => if k = (src, normalize id, normalize inst) then -1 else 0
  | .unregisterDyn sc _ty ctr =>
      let _ := ctr
      match sc with
      | none => 0
      | some k' => if k = k' then -1 else 0

/-- Number of outstanding registrations a sequence of operations leaves
on the cluster with key `k`: materialized registrations minus effective
unregistrations. -/
def outstanding (opts : Option StatsOptions) (ops : List StatsOp) (k : ClusterKey) : Int :=
  (ops.map (fun op => opDelta opts op k)).sum

/-- Well-formedness of the registry list: pairwise distinct cluster
keys, as guaranteed by the de-duplicating hash table. -/
def RegistryWF (regs : List StatsCluster) : Prop :=
  regs.Pairwise (fun a b => keyOf a ≠ keyOf b)

/-- The registry refinement invariant for the ref-count balance: keys
are pairwise distinct, every stored cluster's `ref_cnt` equals the
abstract outstanding-registration count of its key, and absent keys have
outstanding count zero. -/
structure RegInv (regs : List StatsCluster) (f : ClusterKey → Int) : Prop where
  wf : RegistryWF regs
  refEq : ∀ sc ∈ regs, sc.ref_cnt = f (keyOf sc)
  absent : ∀ k, lookupCluster regs k = none → f k = 0

/-- The tag value shape asserted by the specification, taken at its
word: `<dir-and-source>(<id>[,<instance>])=<value>` with the comma and
the instance both omitted whenever either `id` or `instance` is the
empty string. -/
def spec_tag_value (dirsrc id inst : String) (v : Nat) : String :=
  dirsrc ++ "(" ++ id ++ (if id = "" ∨ inst = "" then "" else "," ++ inst) ++ ")=" ++
    toString v

/-- The published tag asserted by the specification for cluster `sc` and
kind `t`: canonical kind name, and the value shape of `spec_tag_value`
with the claimed dir-and-source part. -/
def spec_tag (sc : StatsCluster) (t : StatsCounterType) : Option EVTTAG :=
  (stats_get_direction_and_source_name sc.source).map (fun dirsrc =>
    { name := stats_get_tag_name t,
      value := spec_tag_value dirsrc sc.id sc.instance_ (sc.counters t) })

/-- Concrete options with publishing enabled (the defaults of
`stats_options_defaults`). -/
def w_options : StatsOptions := { level := 0, log_freq := 600, lifetime := 600 }

/-- Concrete options with `log_freq = 0` (publishing disabled). -/
def w_options0 : StatsOptions := { level := 0, log_freq := 0, lifetime := 600 }

/-- A concrete static cluster with one outstanding registration and no
live counters. -/
def w_cluster : StatsCluster :=
  { source := 1, id := "a", instance_ := "", dynamic := false, ref_cnt := 1,
    live_mask := 0, counters := fun _ => 0 }

/-- A concrete orphaned dynamic cluster (`ref_cnt = 0`, `Processed`
live). -/
def w_dyn : StatsCluster :=
  { source := 2, id := "b", instance_ := "", dynamic := true, ref_cnt := 0,
    live_mask := 2, counters := fun _ => 0 }

/-- The cluster left by registering `(1, "a", "", Processed)` at level 0
in the empty registry. -/
def w_registered : StatsCluster :=
  { source := 1, id := "a", instance_ := "", dynamic := false, ref_cnt := 1,
    live_mask := 2, counters := fun _ => 0 }

/-- A concrete destination-file cluster with a live `Processed` counter
at value 3. -/
def w_file : StatsCluster :=
  { source := 513, id := "dst-access", instance_ := "/var/log/a", dynamic := false,
    ref_cnt := 1, live_mask := 2, counters := fun _ => 3 }

/-- A one-operation trace: one static registration of
`(1, "a", "", Processed)` at level 0. -/
def w_ops : List StatsOp := [.register 0 1 (some "a") none .processed]

/-- A concrete cluster of the `global` kind with empty `id`, nonempty
`instance`, and a live `Processed` counter at value 1. -/
def c4_cluster : StatsCluster :=
  { source := 20, id := "", instance_ := "x", dynamic := false, ref_cnt := 1,
    live_mask := 2, counters := fun _ => 1 }

/-- A concrete static (`dynamic = false`) cluster with `ref_cnt = 0` and
a live `Processed` counter. -/
def c6_static : StatsCluster :=
  { source := 1, id := "a", instance_ := "", dynamic := false, ref_cnt := 0,
    live_mask := 2, counters := fun _ => 0 }

/-- The result of a publish-and-prune pass over `[w_cluster]` with
publishing disabled. -/
def w_r0 : PublishResult :=
  { registry := [w_cluster], logStatisticsEvent := none, pruneNotice := none }

/-- The result of a publish-and-prune pass over `[w_cluster]` with
publishing enabled. -/
def w_r1 : PublishResult :=
  { registry := [w_cluster],
    logStatisticsEvent := some { title := "Log statistics", tags := [] },
    pruneNotice := none }

theorem lookupCluster_eq_none {regs : List StatsCluster} {k : ClusterKey} :
    lookupCluster regs k = none ↔ ∀ sc ∈ regs, keyOf sc ≠ k := by
  simp [lookupCluster, List.find?_eq_none]

theorem lookupCluster_eq_none_iff_keys {regs : List StatsCluster} {k : ClusterKey} :
    lookupCluster regs k = none ↔ k ∉ regs.map keyOf := by
  rw [lookupCluster_eq_none]
  constructor
  · intro h hk
    obtain ⟨sc, hsc, hkey⟩ := List.mem_map.mp hk
    exact h sc hsc hkey
  · intro h sc hsc hk
    exact h (List.mem_map.mpr ⟨sc, hsc, hk⟩)

theorem keyOf_of_lookupCluster_some {regs : List StatsCluster} {k : ClusterKey}
    {c : StatsCluster} (h : lookupCluster regs k = some c) : keyOf c = k := by
  have := List.find?_some h
  simpa using this

theorem mem_of_lookupCluster_some {regs : List StatsCluster} {k : ClusterKey}
    {c : StatsCluster} (h : lookupCluster regs k = some c) : c ∈ regs :=
  List.mem_of_find?_eq_some h

theorem updateCluster_of_lookupCluster_none {k : ClusterKey} {g : StatsCluster → StatsCluster} :
    ∀ {regs : List StatsCluster}, lookupCluster regs k = none →
      updateCluster k g regs = regs
  | [], _ => rfl
  | sc :: rest, h => by
      rw [lookupCluster_eq_none] at h
      have hsc : keyOf sc ≠ k := h sc (List.mem_cons_self sc rest)
      have hrest : lookupCluster rest k = none :=
        lookupCluster_eq_none.mpr (fun c hc => h c (List.mem_cons_of_mem sc hc))
      simp [updateCluster, hsc, updateCluster_of_lookupCluster_none hrest]

theorem updateCluster_map_keyOf {k : ClusterKey} {g : StatsCluster → StatsCluster}
    (hg : ∀ sc, keyOf (g sc) = keyOf sc) :
    ∀ (regs : List StatsCluster), (updateCluster k g regs).map keyOf = regs.map keyOf
  | [] => rfl
  | sc :: rest => by
      by_cases hsc : keyOf sc = k
      · simp [updateCluster, hsc, hg]
      · simp [updateCluster, hsc, updateCluster_map_keyOf hg rest]

theorem lookupCluster_updateCluster_none_iff {k k' : ClusterKey}
    {g : StatsCluster → StatsCluster} (hg : ∀ sc, keyOf (g sc) = keyOf sc)
    {regs : List StatsCluster} :
    lookupCluster (updateCluster k g regs) k' = none ↔ lookupCluster regs k' = none := by
  rw [lookupCluster_eq_none_iff_keys, lookupCluster_eq_none_iff_keys,
    updateCluster_map_keyOf hg]

theorem lookupCluster_updateCluster_self {k : ClusterKey}
    {g : StatsCluster → StatsCluster} (hg : ∀ sc, keyOf (g sc) = keyOf sc) :
    ∀ {regs : List StatsCluster} {c : StatsCluster}, lookupCluster regs k = some c →
      lookupCluster (updateCluster k g regs) k = some (g c)
  | [], _, h => by simp [lookupCluster] at h
  | sc :: rest, c, h => by
      by_cases hsc : keyOf sc = k
      · have : lookupCluster (sc :: rest) k = some sc := by
          simp [lookupCluster, List.find?_cons_of_pos, hsc]
        rw [this] at h
        cases h
        simp [updateCluster, hsc, lookupCluster, List.find?_cons_of_pos, hg]
      · have hfind : lookupCluster (sc :: rest) k = lookupCluster rest k := by
          simp [lookupCluster, List.find?_cons_of_neg, hsc]
        rw [hfind] at h
        have := lookupCluster_updateCluster_self hg h
        simp [updateCluster, hsc, lookupCluster, List.find?_cons_of_neg, this]
        simpa [lookupCluster] using this

theorem mem_updateCluster {k : ClusterKey} {g : StatsCluster → StatsCluster} :
    ∀ {regs : List StatsCluster} {c x : StatsCluster}, RegistryWF regs →
      lookupCluster regs k = some c → x ∈ updateCluster k g regs →
      x = g c ∨ (x ∈ regs ∧ keyOf x ≠ k)
  | [], _, _, _, h, _ => by simp [lookupCluster] at h
  | sc :: rest, c, x, hwf, h, hx => by
      rw [RegistryWF, List.pairwise_cons] at hwf
      obtain ⟨hhead, htail⟩ := hwf
      by_cases hsc : keyOf sc = k
      · have : lookupCluster (sc :: rest) k = some sc := by
          simp [lookupCluster, List.find?_cons_of_pos, hsc]
        rw [this] at h
        cases h
        rw [updateCluster] at hx
        simp only [hsc, beq_self_eq_true, if_true] at hx
        rcases List.mem_cons.mp hx with h1 | h2
        · exact Or.inl h1
        · exact Or.inr ⟨List.mem_cons_of_mem sc h2, by rw [← hsc]; exact (hhead x h2).symm⟩
      · have hfind : lookupCluster (sc :: rest) k = lookupCluster rest k := by
          simp [lookupCluster, List.find?_cons_of_neg, hsc]
        rw [hfind] at h
        rw [updateCluster] at hx
        simp only [beq_iff_eq, hsc, if_false] at hx
        rcases List.mem_cons.mp hx with h1 | h2
        · exact Or.inr ⟨by rw [h1]; exact List.mem_cons_self sc rest, by rw [h1]; exact hsc⟩
        · rcases mem_updateCluster htail h h2 with h3 | h4
          · exact Or.inl h3
          · exact Or.inr ⟨List.mem_cons_of_mem sc h4.1, h4.2⟩

theorem registryWF_iff_keys {regs : List StatsCluster} :
    RegistryWF regs ↔ (regs.map keyOf).Pairwise (fun a b => a ≠ b) := by
  rw [RegistryWF, List.pairwise_map]

theorem RegistryWF.updateCluster {k : ClusterKey} {g : StatsCluster → StatsCluster}
    (hg : ∀ sc, keyOf (g sc) = keyOf sc) {regs : List StatsCluster}
    (hwf : RegistryWF regs) : RegistryWF (SyslogStats.updateCluster k g regs) := by
  rw [registryWF_iff_keys, updateCluster_map_keyOf hg]
  exact registryWF_iff_keys.mp hwf

theorem RegInv.congr {regs : List StatsCluster} {f f' : ClusterKey → Int}
    (h : RegInv regs f) (hf : ∀ k, f k = f' k) : RegInv regs f' where
  wf := h.wf
  refEq := fun sc hsc => (h.refEq sc hsc).trans (hf (keyOf sc))
  absent := fun k hk => (hf k).symm.trans (h.absent k hk)

theorem RegInv.insert {regs : List StatsCluster} {f : ClusterKey → Int}
    {k : ClusterKey} {c : StatsCluster} (hinv : RegInv regs f)
    (hnone : lookupCluster regs k = none) (hkey : keyOf c = k)
    (href : c.ref_cnt = 1) :
    RegInv (c :: regs) (fun k' => f k' + if k' = k then 1 else 0) where
  wf := by
    rw [RegistryWF, List.pairwise_cons]
    refine ⟨fun x hx hcx => ?_, hinv.wf⟩
    exact (lookupCluster_eq_none.mp hnone x hx) (hcx ▸ hkey)
  refEq := by
    intro sc hsc
    rcases List.mem_cons.mp hsc with h1 | h2
    · subst h1
      rw [href, hkey]
      simp [hinv.absent k hnone]
    · have hne : keyOf sc ≠ k := lookupCluster_eq_none.mp hnone sc h2
      simp [hne, hinv.refEq sc h2]
  absent := by
    intro k' hk'
    rw [lookupCluster_eq_none] at hk'
    have hck : keyOf c ≠ k' := hk' c (List.mem_cons_self c regs)
    have hne : k' ≠ k := fun h => hck (h ▸ hkey)
    have : lookupCluster regs k' = none :=
      lookupCluster_eq_none.mpr (fun sc hsc => hk' sc (List.mem_cons_of_mem c hsc))
    simp [hne, hinv.absent k' this]

theorem RegInv.update {regs : List StatsCluster} {f : ClusterKey → Int}
    {k : ClusterKey} {c : StatsCluster} {g : StatsCluster → StatsCluster} {d : Int}
    (hinv : RegInv regs f) (hfound : lookupCluster regs k = some c)
    (hg : ∀ sc, keyOf (g sc) = keyOf sc) (hd : (g c).ref_cnt = c.ref_cnt + d) :
    RegInv (updateCluster k g regs) (fun k' => f k' + if k' = k then d else 0) where
  wf := hinv.wf.updateCluster hg
  refEq := by
    intro sc hsc
    rcases mem_updateCluster hinv.wf hfound hsc with h1 | h2
    · subst h1
      rw [hd, hg, keyOf_of_lookupCluster_some hfound]
      simp [hinv.refEq c (mem_of_lookupCluster_some hfound),
        keyOf_of_lookupCluster_some hfound]
    · simp [h2.2, hinv.refEq sc h2.1]
  absent := by
    intro k' hk'
    have hne : k' ≠ k := by
      intro h
      subst h
      rw [lookupCluster_updateCluster_self hg hfound] at hk'
      cases hk'
    have : lookupCluster regs k' = none :=
      (lookupCluster_updateCluster_none_iff hg).mp hk'
    simp [hne, hinv.absent k' this]

theorem register_counter_inv {opts : Option StatsOptions} {regs regs' : List StatsCluster}
    {f : ClusterKey → Int} {lvl : Int} {src : Nat} {id inst : Option String}
    {ty : StatsCounterType} (hinv : RegInv regs f)
    (h : (stats_register_counter true opts regs lvl src id inst ty).map
      RegisterResult.registry = .ok regs') :
    RegInv regs' (fun k => f k + opDelta opts (.register lvl src id inst ty) k) := by
  by_cases hlev : stats_check_level opts lvl
  case neg =>
    simp [stats_register_counter, stats_add_counter, hlev, Except.map] at h
    subst h
    exact hinv.congr (by intro k; simp [opDelta, hlev])
  case pos =>
    cases hl : lookupCluster regs (src, normalize id, normalize inst) with
    | none =>
      simp [stats_register_counter, stats_add_counter, hlev, hl, Except.map] at h
      rw [show keyOf (newCluster src (normalize id) (normalize inst))
            = (src, normalize id, normalize inst) from rfl] at h
      rw [updateCluster] at h
      simp only [keyOf, newCluster, beq_self_eq_true, if_true] at h
      subst h
      have hins : RegInv
          ({ newCluster src (normalize id) (normalize inst) with
              live_mask := 0 ||| 1 <<< ty.toIdx } :: regs)
          (fun k' => f k' + if k' = (src, normalize id, normalize inst) then 1 else 0) :=
        hinv.insert hl rfl rfl
      refine hins.congr ?_
      intro k
      by_cases hk : k = (src, normalize id, normalize inst) <;>
        simp [opDelta, hlev, hk]
    | some c =>
      simp [stats_register_counter, stats_add_counter, hlev, hl, Except.map] at h
      have hkey : keyOf c = (src, normalize id, normalize inst) :=
        keyOf_of_lookupCluster_some hl
      rw [show keyOf
            { source := c.source, id := c.id, instance_ := c.instance_,
              dynamic := c.dynamic, ref_cnt := c.ref_cnt + 1,
              live_mask := c.live_mask, counters := c.counters } = keyOf c from rfl,
        hkey] at h
      have h1 : RegInv
          (updateCluster (src, normalize id, normalize inst)
            (fun c => { c with ref_cnt := c.ref_cnt + 1 }) regs)
          (fun k' => f k' + if k' = (src, normalize id, normalize inst) then 1 else 0) :=
        hinv.update hl (fun sc => rfl) rfl
      have h2 : lookupCluster
          (updateCluster (src, normalize id, normalize inst)
            (fun c => { c with ref_cnt := c.ref_cnt + 1 }) regs)
          (src, normalize id, normalize inst) = some { c with ref_cnt := c.ref_cnt + 1 } := by
        apply lookupCluster_updateCluster_self _ hl
        intro sc
        rfl
      have h3 : RegInv
          (updateCluster (src, normalize id, normalize inst)
            (fun c => { c with live_mask := c.live_mask ||| 1 <<< ty.toIdx })
            (updateCluster (src, normalize id, normalize inst)
              (fun c => { c with ref_cnt := c.ref_cnt + 1 }) regs))
          (fun k' => (f k' + if k' = (src, normalize id, normalize inst) then 1 else 0)
            + if k' = (src, normalize id, normalize inst) then 0 else 0) :=
        h1.update h2 (fun sc => rfl) (by simp)
      rw [h] at h3
      refine h3.congr ?_
      intro k
      by_cases hk : k = (src, normalize id, normalize inst) <;>
        simp [opDelta, hlev, hk]

theorem register_dynamic_counter_inv {opts : Option StatsOptions}
    {regs regs' : List StatsCluster} {f : ClusterKey → Int} {lvl : Int} {src : Nat}
    {id inst : Option String} {ty : StatsCounterType} (hinv : RegInv regs f)
    (h : (stats_register_dynamic_counter true opts regs lvl src id inst ty).map
      DynRegisterResult.registry = .ok regs') :
    RegInv regs' (fun k => f k + opDelta opts (.registerDyn lvl src id inst ty) k) := by
  by_cases hlev : stats_check_level opts lvl
  case neg =>
    simp [stats_register_dynamic_counter, stats_add_counter, hlev, Except.map] at h
    subst h
    exact hinv.congr (by intro k; simp [opDelta, hlev])
  case pos =>
    cases hl : lookupCluster regs (src, normalize id, normalize inst) with
    | none =>
      simp [stats_register_dynamic_counter, stats_add_counter, hlev, hl, Except.map] at h
      rw [show keyOf (newCluster src (normalize id) (normalize inst))
            = (src, normalize id, normalize inst) from rfl] at h
      rw [updateCluster] at h
      simp only [keyOf, newCluster, beq_self_eq_true, if_true] at h
      subst h
      have hins : RegInv
          ({ newCluster src (normalize id) (normalize inst) with
              dynamic := true, live_mask := 0 ||| 1 <<< ty.toIdx } :: regs)
          (fun k' => f k' + if k' = (src, normalize id, normalize inst) then 1 else 0) :=
        hinv.insert hl rfl rfl
      refine hins.congr ?_
      intro k
      by_cases hk : k = (src, normalize id, normalize inst) <;>
        simp [opDelta, hlev, hk]
    | some c =>
      by_cases hdead : (!(c.ref_cnt == 0) && !c.dynamic)
      · simp [stats_register_dynamic_counter, stats_add_counter, hlev, hl, hdead,
          Except.map] at h
      · simp [stats_register_dynamic_counter, stats_add_counter, hlev, hl, hdead,
          Except.map] at h
        have hkey : keyOf c = (src, normalize id, normalize inst) :=
          keyOf_of_lookupCluster_some hl
        rw [show keyOf
              { source := c.source, id := c.id, instance_ := c.instance_,
                dynamic := c.dynamic, ref_cnt := c.ref_cnt + 1,
                live_mask := c.live_mask, counters := c.counters } = keyOf c from rfl,
          hkey] at h
        have h1 : RegInv
            (updateCluster (src, normalize id, normalize inst)
              (fun c => { c with ref_cnt := c.ref_cnt + 1 }) regs)
            (fun k' => f k' + if k' = (src, normalize id, normalize inst) then 1 else 0) :=
          hinv.update hl (fun sc => rfl) rfl
        have h2 : lookupCluster
            (updateCluster (src, normalize id, normalize inst)
              (fun c => { c with ref_cnt := c.ref_cnt + 1 }) regs)
            (src, normalize id, normalize inst) = some { c with ref_cnt := c.ref_cnt + 1 } := by
          apply lookupCluster_updateCluster_self _ hl
          intro sc
          rfl
        have h3 : RegInv
            (updateCluster (src, normalize id, normalize inst)
              (fun c => { c with
                dynamic := true, live_mask := c.live_mask ||| 1 <<< ty.toIdx })
              (updateCluster (src, normalize id, normalize inst)
                (fun c => { c with ref_cnt := c.ref_cnt + 1 }) regs))
            (fun k' => (f k' + if k' = (src, normalize id, normalize inst) then 1 else 0)
              + if k' = (src, normalize id, normalize inst) then 0 else 0) :=
          h1.update h2 (fun sc => rfl) (by simp)
        rw [h] at h3
        refine h3.congr ?_
        intro k
        by_cases hk : k = (src, normalize id, normalize inst) <;>
          simp [opDelta, hlev, hk]

theorem register_associated_counter_inv {opts : Option StatsOptions}
    {regs regs' : List StatsCluster} {f : ClusterKey → Int} {sck : Option ClusterKey}
    {ty : StatsCounterType} (hinv : RegInv regs f)
    (h : (stats_register_associated_counter true regs sck ty).map
      RegisterResult.registry = .ok regs') :
    RegInv regs' (fun k => f k + opDelta opts (.registerAssoc sck ty) k) := by
  cases sck with
  | none =>
    simp [stats_register_associated_counter, Except.map] at h
    subst h
    exact hinv.congr (by intro k; simp [opDelta])
  | some k₀ =>
    cases hl : lookupCluster regs k₀ with
    | none => simp [stats_register_associated_counter, hl, Except.map] at h
    | some c =>
      by_cases hdyn : c.dynamic
      · simp [stats_register_associated_counter, hl, hdyn, Except.map] at h
        have h1 : RegInv
            (updateCluster k₀
              (fun c => { c with
                live_mask := c.live_mask ||| 1 <<< ty.toIdx, ref_cnt := c.ref_cnt + 1 }) regs)
            (fun k' => f k' + if k' = k₀ then 1 else 0) :=
          hinv.update hl (fun sc => rfl) rfl
        rw [h] at h1
        refine h1.congr ?_
        intro k
        by_cases hk : k = k₀ <;> simp [opDelta, hk]
      · have hd : c.dynamic = false := by simpa using hdyn
        simp [stats_register_associated_counter, hl, hd, Except.map] at h

theorem unregister_counter_inv {opts : Option StatsOptions}
    {regs regs' : List StatsCluster} {f : ClusterKey → Int} {src : Nat}
    {id inst : Option String} {ty : StatsCounterType} {ctr : Option CounterHandle}
    (hinv : RegInv regs f)
    (h : (stats_unregister_counter true regs src id inst ty ctr).map
      UnregisterResult.registry = .ok regs') :
    RegInv regs' (fun k => f k + opDelta opts (.unregister src id inst ty ctr) k) := by
  cases ctr with
  | none =>
    simp [stats_unregister_counter, Except.map] at h
    subst h
    exact hinv.congr (by intro k; simp [opDelta])
  | some hdl =>
    cases hl : lookupCluster regs (src, normalize id, normalize inst) with
    | none => simp [stats_unregister_counter, hl, Except.map] at h
    | some c =>
      by_cases hcond : (c.live_mask &&& 1 <<< ty.toIdx ≠ 0 ∧ hdl = (keyOf c, ty))
      · simp [stats_unregister_counter, hl, hcond, Except.map] at h
        have h1 : RegInv
            (updateCluster (src, normalize id, normalize inst)
              (fun c => { c with ref_cnt := c.ref_cnt - 1 }) regs)
            (fun k' => f k' + if k' = (src, normalize id, normalize inst) then -1 else 0) :=
          hinv.update hl (fun sc => rfl)
            (by change c.ref_cnt - 1 = c.ref_cnt + -1; omega)
        rw [h] at h1
        refine h1.congr ?_
        intro k
        by_cases hk : k = (src, normalize id, normalize inst) <;> simp [opDelta, hk]
      · simp [stats_unregister_counter, hl, hcond, Except.map] at h

theorem unregister_dynamic_counter_inv {opts : Option StatsOptions}
    {regs regs' : List StatsCluster} {f : ClusterKey → Int} {sck : Option ClusterKey}
    {ty : StatsCounterType} {ctr : Option CounterHandle} (hinv : RegInv regs f)
    (h : (stats_unregister_dynamic_counter true regs sck ty ctr).map
      UnregisterResult.registry = .ok regs') :
    RegInv regs' (fun k => f k + opDelta opts (.unregisterDyn sck ty ctr) k) := by
  cases sck with
  | none =>
    simp [stats_unregister_dynamic_counter, Except.map] at h
    subst h
    exact hinv.congr (by intro k; simp [opDelta])
  | some k₀ =>
    cases hl : lookupCluster regs k₀ with
    | none => simp [stats_unregister_dynamic_counter, hl, Except.map] at h
    | some c =>
      by_cases hcond : (c.live_mask &&& 1 <<< ty.toIdx ≠ 0 ∧ ctr = some ((k₀, ty) : CounterHandle))
      · simp [stats_unregister_dynamic_counter, hl, hcond, Except.map] at h
        have h1 : RegInv
            (updateCluster k₀ (fun c => { c with ref_cnt := c.ref_cnt - 1 }) regs)
            (fun k' => f k' + if k' = k₀ then -1 else 0) :=
          hinv.update hl (fun sc => rfl)
            (by change c.ref_cnt - 1 = c.ref_cnt + -1; omega)
        rw [h] at h1
        refine h1.congr ?_
        intro k
        by_cases hk : k = k₀ <;> simp [opDelta, hk]
      · simp [stats_unregister_dynamic_counter, hl, hcond, Except.map] at h

theorem runOp_inv {opts : Option StatsOptions} {op : StatsOp}
    {regs regs' : List StatsCluster} {f : ClusterKey → Int} (hinv : RegInv regs f)
    (h : runOp opts op regs = .ok regs') :
    RegInv regs' (fun k => f k + opDelta opts op k) := by
  cases op with
  | register lvl src id inst ty => exact register_counter_inv hinv h
  | registerDyn lvl src id inst ty => exact register_dynamic_counter_inv hinv h
  | registerAssoc sck ty => exact register_associated_counter_inv hinv h
  | unregister src id inst ty ctr => exact unregister_counter_inv hinv h
  | unregisterDyn sck ty ctr => exact unregister_dynamic_counter_inv hinv h

theorem runOps_inv {opts : Option StatsOptions} :
    ∀ (ops : List StatsOp) {regs regs' : List StatsCluster} {f : ClusterKey → Int},
      RegInv regs f → runOps opts ops regs = .ok regs' →
      RegInv regs' (fun k => f k + outstanding opts ops k)
  | [], regs, regs', f, hinv, h => by
      simp [runOps] at h
      subst h
      exact hinv.congr (by intro k; simp [outstanding])
  | op :: ops, regs, regs', f, hinv, h => by
      rw [runOps] at h
      cases hop : runOp opts op regs with
      | error e => rw [hop] at h; cases h
      | ok regs₁ =>
          rw [hop] at h
          have h1 := runOp_inv hinv hop
          have h2 := runOps_inv ops h1 h
          refine h2.congr ?_
          intro k
          simp [outstanding]
          ring

theorem format_and_prune_ok {opts : StatsOptions} {now : Int} {sc : StatsCluster}
    {st : StatsTimerState} {rm : Bool} {st' : StatsTimerState}
    (h : stats_format_and_prune_cluster opts now sc st = .ok (rm, st')) :
    rm = stats_counter_is_expired opts sc now := by
  cases hfmt : stats_log_format_cluster sc with
  | error e => simp [stats_format_and_prune_cluster, hfmt] at h
  | ok tags =>
      by_cases hexp : stats_counter_is_expired opts sc now <;>
        simp [stats_format_and_prune_cluster, hfmt, stats_prune_counter, hexp] at h <;>
        simp [h.1, hexp]

theorem prune_loop_ok_registry {opts : StatsOptions} {now : Int} :
    ∀ {regs : List StatsCluster} {st : StatsTimerState} {regs' : List StatsCluster}
      {st' : StatsTimerState}, prune_loop opts now regs st = .ok (regs', st') →
      regs' = regs.filter (fun sc => !stats_counter_is_expired opts sc now)
  | [], st, regs', st', h => by
      simp [prune_loop] at h
      obtain ⟨h1, h2⟩ := h
      subst h1
      simp
  | sc :: rest, st, regs', st', h => by
      cases hf : stats_format_and_prune_cluster opts now sc st with
      | error e => simp [prune_loop, hf] at h
      | ok p =>
          obtain ⟨rm, st1⟩ := p
          cases hrec : prune_loop opts now rest st1 with
          | error e => simp [prune_loop, hf, hrec] at h
          | ok q =>
              obtain ⟨rest', st2⟩ := q
              simp [prune_loop, hf, hrec] at h
              have hrm := format_and_prune_ok hf
              have hrest := prune_loop_ok_registry hrec
              by_cases hexp : stats_counter_is_expired opts sc now
              · rw [← h.1]
                simp [hrm, hexp, hrest]
              · rw [← h.1]
                simp [hrm, hexp, hrest]

theorem prune_loop_dropped {opts : StatsOptions} {now : Int} :
    ∀ {regs : List StatsCluster} {st : StatsTimerState} {regs' : List StatsCluster}
      {st' : StatsTimerState}, prune_loop opts now regs st = .ok (regs', st') →
      st'.dropped_counters = st.dropped_counters + ((regs.length : Int) - regs'.length)
  | [], st, regs', st', h => by
      simp [prune_loop] at h
      obtain ⟨h1, h2⟩ := h
      subst h1
      subst h2
      simp
  | sc :: rest, st, regs', st', h => by
      cases hf : stats_format_and_prune_cluster opts now sc st with
      | error e => simp [prune_loop, hf] at h
      | ok p =>
          obtain ⟨rm, st1⟩ := p
          cases hrec : prune_loop opts now rest st1 with
          | error e => simp [prune_loop, hf, hrec] at h
          | ok q =>
              obtain ⟨rest', st2⟩ := q
              simp [prune_loop, hf, hrec] at h
              have hrest := prune_loop_dropped hrec
              have hrest_le : rest'.length ≤ rest.length := by
                have := prune_loop_ok_registry hrec
                subst this
                exact List.length_filter_le _ rest
              have hst1 : st1.dropped_counters
                  = st.dropped_counters + (if rm then 1 else 0) := by
                cases hfmt : stats_log_format_cluster sc with
                | error e => simp [stats_format_and_prune_cluster, hfmt] at hf
                | ok tags =>
                    by_cases hexp : stats_counter_is_expired opts sc now <;>
                      simp [stats_format_and_prune_cluster, hfmt,
                        stats_prune_counter, hexp] at hf <;>
                      simp [← hf.2, hexp] <;>
                      simp [hf.1, hexp]
              by_cases hrm : rm
              · subst hrm
                simp at h hst1
                rw [← h.1, ← h.2]
                rw [hrest, hst1]
                simp
                omega
              · simp [hrm] at h hst1
                rw [← h.1, ← h.2]
                rw [hrest, hst1]
                simp

theorem is_expired_congr {opts1 opts2 : StatsOptions} (h : opts1.lifetime = opts2.lifetime)
    (sc : StatsCluster) (now : Int) :
    stats_counter_is_expired opts1 sc now = stats_counter_is_expired opts2 sc now := by
  simp [stats_counter_is_expired, h]

theorem format_and_prune_congr {opts1 opts2 : StatsOptions} {now : Int}
    {sc : StatsCluster} {st1 st2 : StatsTimerState} {rm : Bool} {u1 : StatsTimerState}
    (hlt : opts1.lifetime = opts2.lifetime)
    (ho : st1.oldest_counter = st2.oldest_counter)
    (hd : st1.dropped_counters = st2.dropped_counters)
    (h : stats_format_and_prune_cluster opts1 now sc st1 = .ok (rm, u1)) :
    ∃ u2, stats_format_and_prune_cluster opts2 now sc st2 = .ok (rm, u2) ∧
      u1.oldest_counter = u2.oldest_counter ∧
      u1.dropped_counters = u2.dropped_counters := by
  cases hfmt : stats_log_format_cluster sc with
  | error e => simp [stats_format_and_prune_cluster, hfmt] at h
  | ok tags =>
      have hrm := is_expired_congr hlt sc now
      by_cases hexp : stats_counter_is_expired opts1 sc now
      · simp [stats_format_and_prune_cluster, hfmt, stats_prune_counter,
          hexp, ← hrm] at h ⊢
        obtain ⟨h1, h2⟩ := h
        subst h1
        subst h2
        refine ⟨_, ⟨rfl, rfl⟩, ?_, ?_⟩ <;> simp [ho, hd]
      · simp [stats_format_and_prune_cluster, hfmt, stats_prune_counter,
          hexp, ← hrm] at h ⊢
        obtain ⟨h1, h2⟩ := h
        subst h1
        subst h2
        refine ⟨_, ⟨rfl, rfl⟩, ?_, ?_⟩ <;> simp [ho, hd]

theorem prune_loop_congr {opts1 opts2 : StatsOptions} {now : Int}
    (hlt : opts1.lifetime = opts2.lifetime) :
    ∀ {regs : List StatsCluster} {st1 st2 : StatsTimerState}
      {regs1 : List StatsCluster} {t1 : StatsTimerState},
      st1.oldest_counter = st2.oldest_counter →
      st1.dropped_counters = st2.dropped_counters →
      prune_loop opts1 now regs st1 = .ok (regs1, t1) →
      ∃ t2, prune_loop opts2 now regs st2 = .ok (regs1, t2) ∧
        t1.oldest_counter = t2.oldest_counter ∧
        t1.dropped_counters = t2.dropped_counters
  | [], st1, st2, regs1, t1, ho, hd, h => by
      simp [prune_loop] at h
      obtain ⟨h1, h2⟩ := h
      subst h1
      refine ⟨st2, by simp [prune_loop], ?_, ?_⟩ <;> simp [← h2, ho, hd]
  | sc :: rest, st1, st2, regs1, t1, ho, hd, h => by
      cases hf1 : stats_format_and_prune_cluster opts1 now sc st1 with
      | error e => simp [prune_loop, hf1] at h
      | ok p =>
          obtain ⟨rm, u1⟩ := p
          obtain ⟨u2, hf2, huo, hud⟩ := format_and_prune_congr hlt ho hd hf1
          cases hrec1 : prune_loop opts1 now rest u1 with
          | error e => simp [prune_loop, hf1, hrec1] at h
          | ok q =>
              obtain ⟨rest', t1'⟩ := q
              simp [prune_loop, hf1, hrec1] at h
              obtain ⟨hq1, hq2⟩ := h
              obtain ⟨t2, hrec2, hto, htd⟩ := prune_loop_congr hlt huo hud hrec1
              subst hq2
              exact ⟨t2, by simp [prune_loop, hf2, hrec2, hq1], hto, htd⟩

theorem go_of_prune_loop_ok {opts : StatsOptions} {now : Int} :
    ∀ {regs : List StatsCluster} {st : StatsTimerState} {regs' : List StatsCluster}
      {st' : StatsTimerState}, prune_loop opts now regs st = .ok (regs', st') →
      stats_foreach_cluster_remove.go (publish_prune_step opts now) regs (.ok st)
        = (regs', .ok st')
  | [], st, regs', st', h => by
      simp [prune_loop] at h
      simp [stats_foreach_cluster_remove.go, h.1.symm, h.2]
  | sc :: rest, st, regs', st', h => by
      cases hf : stats_format_and_prune_cluster opts now sc st with
      | error e => simp [prune_loop, hf] at h
      | ok p =>
          obtain ⟨rm, st1⟩ := p
          cases hrec : prune_loop opts now rest st1 with
          | error e => simp [prune_loop, hf, hrec] at h
          | ok q =>
              obtain ⟨rest', st2⟩ := q
              simp [prune_loop, hf, hrec] at h
              have := go_of_prune_loop_ok hrec
              simp [stats_foreach_cluster_remove.go, publish_prune_step, hf, this,
                h.1, h.2]

theorem go_error_absorb {opts : StatsOptions} {now : Int} :
    ∀ (l : List StatsCluster),
      (stats_foreach_cluster_remove.go (publish_prune_step opts now) l
        (.error ())).2 = .error ()
  | [] => by simp [stats_foreach_cluster_remove.go]
  | x :: xs => by
      simp [stats_foreach_cluster_remove.go, publish_prune_step, go_error_absorb xs]

theorem go_of_prune_loop_error {opts : StatsOptions} {now : Int} :
    ∀ {regs : List StatsCluster} {st : StatsTimerState} {e : Unit},
      prune_loop opts now regs st = .error e →
      (stats_foreach_cluster_remove.go (publish_prune_step opts now) regs (.ok st)).2
        = .error ()
  | [], st, e, h => by simp [prune_loop] at h
  | sc :: rest, st, e, h => by
      cases hf : stats_format_and_prune_cluster opts now sc st with
      | error e' =>
          cases e'
          simp [stats_foreach_cluster_remove.go, publish_prune_step, hf,
            go_error_absorb]
      | ok p =>
          obtain ⟨rm, st1⟩ := p
          cases hrec : prune_loop opts now rest st1 with
          | error e' =>
              have := go_of_prune_loop_error hrec
              simp [stats_foreach_cluster_remove.go, publish_prune_step, hf, this]
          | ok q =>
              simp [prune_loop, hf, hrec] at h

theorem publish_ok_elim {opts : StatsOptions} {now : Int} {regs : List StatsCluster}
    {r : PublishResult} (h : stats_publish_and_prune_counters opts now regs = .ok r) :
    ∃ st', prune_loop opts now regs (publish_initial_state opts) = .ok (r.registry, st') ∧
      r.logStatisticsEvent = (if opts.log_freq > 0 then st'.stats_event else none) ∧
      r.pruneNotice = (if st'.dropped_counters > 0
        then some (st'.dropped_counters, st'.oldest_counter) else none) := by
  cases hpl : prune_loop opts now regs (publish_initial_state opts) with
  | error e =>
      have h2 := go_of_prune_loop_error hpl
      cases hgo : stats_foreach_cluster_remove.go (publish_prune_step opts now) regs
          (.ok (publish_initial_state opts)) with
      | mk gr gs =>
          have hgs : gs = .error () := by rw [← h2, hgo]
          simp [stats_publish_and_prune_counters, stats_foreach_cluster_remove,
            hgo, hgs] at h
  | ok q =>
      obtain ⟨regs', st'⟩ := q
      have h2 := go_of_prune_loop_ok hpl
      simp [stats_publish_and_prune_counters, stats_foreach_cluster_remove, h2] at h
      subst h
      exact ⟨st', by simp [hpl], by simp, by simp⟩

theorem publish_ok_intro {opts : StatsOptions} {now : Int} {regs : List StatsCluster}
    {regs' : List StatsCluster} {st' : StatsTimerState}
    (h : prune_loop opts now regs (publish_initial_state opts) = .ok (regs', st')) :
    stats_publish_and_prune_counters opts now regs = .ok
      { registry := regs',
        logStatisticsEvent := if opts.log_freq > 0 then st'.stats_event else none,
        pruneNotice := if st'.dropped_counters > 0
          then some (st'.dropped_counters, st'.oldest_counter) else none } := by
  have h2 := go_of_prune_loop_ok h
  simp [stats_publish_and_prune_counters, stats_foreach_cluster_remove, h2]

theorem keyOf_set_ref (c : StatsCluster) (x : Int) :
    keyOf { c with ref_cnt := x } = keyOf c := rfl

theorem keyOf_newCluster (s : Nat) (i n : String) :
    keyOf (newCluster s i n) = (s, i, n) := rfl

/-- C1: a prune pass (`stats_publish_and_prune_counters`) removes a
cluster if and only if the cluster is dynamic, its `ref_cnt` is 0 (under
the standing invariant `ref_cnt ≥ 0`), its `live_mask` contains the
`Stamp` bit, and its stamp value is at most `now - options.lifetime`;
in particular, for every registry state, a cluster with `dynamic = false`
is never removed by the pass. -/
theorem C1_prune_pass_removes_iff_expired (opts : StatsOptions) (now : Int) (regs : List StatsCluster)
    (r : PublishResult) (h : stats_publish_and_prune_counters opts now regs = .ok r) :
    (∀ sc ∈ regs, 0 ≤ sc.ref_cnt →
      (sc ∉ r.registry ↔
        (sc.dynamic = true ∧ sc.ref_cnt = 0 ∧
         sc.live_mask &&& 1 <<< StatsCounterType.stamp.toIdx ≠ 0 ∧
         (sc.counters .stamp : Int) ≤ now - opts.lifetime))) ∧
    (∀ sc ∈ regs, sc.dynamic = false → sc ∈ r.registry) := by
  obtain ⟨st', hpl, _, _⟩ := publish_ok_elim h
  have hreg := prune_loop_ok_registry hpl
  constructor
  · intro sc hsc href
    rw [hreg]
    rw [List.mem_filter]
    constructor
    · intro hn
      have hexp : stats_counter_is_expired opts sc now = true := by
        by_contra hc
        exact hn ⟨hsc, by simp [hc]⟩
      simp only [stats_counter_is_expired] at hexp
      by_cases h1 : sc.dynamic
      · by_cases h2 : sc.ref_cnt > 0
        · simp [h1, h2] at hexp
        · by_cases h3 : sc.live_mask &&& 1 <<< StatsCounterType.stamp.toIdx = 0
          · simp [h1, h2, h3] at hexp
          · simp [h1, h2, h3] at hexp
            exact ⟨h1, by omega, h3, hexp⟩
      · simp [h1] at hexp
    · rintro ⟨h1, h2, h3, h4⟩ hmem
      have : stats_counter_is_expired opts sc now = true := by
        simp [stats_counter_is_expired, h1, h2, h3, h4]
      rw [this] at hmem
      simp at hmem
  · intro sc hsc hdyn
    rw [hreg, List.mem_filter]
    exact ⟨hsc, by simp [stats_counter_is_expired, hdyn]⟩

/-- C2: for every registration call (`stats_register_counter` or
`stats_register_dynamic_counter`), if `options.level` is below the
declared level, the returned counter handle is NULL and the registry is
unchanged: no cluster is created and no existing cluster is modified. -/
theorem C2_level_gate (o : StatsOptions) (lvl : Int) (hlt : o.level < lvl) :
    (∀ (regs : List StatsCluster) (src : Nat) (id inst : Option String)
      (ty : StatsCounterType),
      stats_register_counter true (some o) regs lvl src id inst ty =
        .ok { counter := none, registry := regs }) ∧
    (∀ (regs : List StatsCluster) (src : Nat) (id inst : Option String)
      (ty : StatsCounterType),
      stats_register_dynamic_counter true (some o) regs lvl src id inst ty =
        .ok { ret := none, counter := none, new := none, registry := regs }) := by
  have hlev : stats_check_level (some o) lvl = false := by
    simp [stats_check_level]
    omega
  constructor
  · intro regs src id inst ty
    simp [stats_register_counter, stats_add_counter, hlev]
  · intro regs src id inst ty
    simp [stats_register_dynamic_counter, stats_add_counter, hlev]

/-- C2 witness: registering at declared level 6 with `options.level = 5`
yields a NULL handle and leaves the empty registry empty. -/
theorem C2_witness :
    (5 : Int) < 6 ∧
    stats_register_counter true (some { level := 5, log_freq := 600, lifetime := 600 })
      [] 6 1 (some "a") none .processed = .ok { counter := none, registry := [] } :=
  ⟨by decide, (C2_level_gate { level := 5, log_freq := 600, lifetime := 600 } 6 (by decide)).1
    [] 1 (some "a") none .processed⟩

/-- C3: a dynamic registration of a key whose cluster exists with
`ref_cnt = 0` returns that same cluster with `ref_cnt = 1`, every
previously set `live_mask` bit still set, and the `new` out-flag true;
and whenever a dynamic registration returns a cluster, the `new` flag is
true exactly when the cluster was created or the existing cluster had
`ref_cnt = 0`. -/
theorem C3_reregistration_revives :
    (∀ (opts : Option StatsOptions) (regs : List StatsCluster) (lvl : Int) (src : Nat)
      (id inst : Option String) (ty : StatsCounterType) (sc : StatsCluster),
      stats_check_level opts lvl = true →
      lookupCluster regs (src, normalize id, normalize inst) = some sc →
      sc.ref_cnt = 0 →
      ∃ r sc', stats_register_dynamic_counter true opts regs lvl src id inst ty = .ok r ∧
        r.ret = some sc' ∧ keyOf sc' = keyOf sc ∧ sc'.ref_cnt = 1 ∧
        (∀ i, sc.live_mask.testBit i = true → sc'.live_mask.testBit i = true) ∧
        r.new = some true) ∧
    (∀ (opts : Option StatsOptions) (regs : List StatsCluster) (lvl : Int) (src : Nat)
      (id inst : Option String) (ty : StatsCounterType) (r : DynRegisterResult),
      stats_register_dynamic_counter true opts regs lvl src id inst ty = .ok r →
      r.ret.isSome →
      r.new = some
        (match lookupCluster regs (src, normalize id, normalize inst) with
          | none => true
          | some c => c.ref_cnt == 0)) := by
  constructor
  · intro opts regs lvl src id inst ty sc hlev hl href
    have hnew : (sc.ref_cnt == 0) = true := by simp [href]
    have hkey : keyOf sc = (src, normalize id, normalize inst) :=
      keyOf_of_lookupCluster_some hl
    have heq : stats_register_dynamic_counter true opts regs lvl src id inst ty = .ok
        { ret := some { sc with
            dynamic := true, ref_cnt := sc.ref_cnt + 1,
            live_mask := sc.live_mask ||| 1 <<< ty.toIdx },
          counter := some ((src, normalize id, normalize inst), ty),
          new := some true,
          registry := updateCluster (src, normalize id, normalize inst)
            (fun c => { c with
              dynamic := true, live_mask := c.live_mask ||| 1 <<< ty.toIdx })
            (updateCluster (src, normalize id, normalize inst)
              (fun c => { c with ref_cnt := c.ref_cnt + 1 }) regs) } := by
      simp [stats_register_dynamic_counter, stats_add_counter, hlev, hl, hnew,
        keyOf_set_ref, hkey]
    refine ⟨_, _, heq, rfl, rfl, by change sc.ref_cnt + 1 = 1; omega, ?_, rfl⟩
    intro i hi
    simp [Nat.testBit_or, hi]
  · intro opts regs lvl src id inst ty r hok hsome
    by_cases hlev : stats_check_level opts lvl
    · cases hl : lookupCluster regs (src, normalize id, normalize inst) with
      | none =>
          simp [stats_register_dynamic_counter, stats_add_counter, hlev, hl] at hok
          simp [← hok, hl]
      | some c =>
          by_cases hdead : (!(c.ref_cnt == 0) && !c.dynamic)
          · simp [stats_register_dynamic_counter, stats_add_counter, hlev, hl,
              hdead] at hok
          · simp [stats_register_dynamic_counter, stats_add_counter, hlev, hl,
              hdead] at hok
            simp [← hok, hl]
    · simp [stats_register_dynamic_counter, stats_add_counter, hlev] at hok
      rw [← hok] at hsome
      simp at hsome

/-- C4 counterexample: for the `global` cluster with empty `id` and
instance `"x"` at value 1 the code publishes the tag value
`global(x)=1`, while the claimed shape (comma and instance both omitted
when either is empty) demands `global()=1`. -/
theorem C4_counterexample :
    c4_cluster.live_mask &&& 1 <<< StatsCounterType.processed.toIdx ≠ 0 ∧
    stats_log_format_counter c4_cluster .processed =
      .ok { name := "processed", value := "global(x)=1" } ∧
    spec_tag c4_cluster .processed =
      some { name := "processed", value := "global()=1" } ∧
    ("global(x)=1" : String) ≠ "global()=1" := by
  refine ⟨by decide, ?_, ?_, by decide⟩
  · rfl
  · rfl

/-- C4 (amended): for every cluster and every kind whose bit is in
`live_mask`, the published tag has the kind's canonical name, and value
`<dir-and-source>(<id><sep><instance>)=<value>` where the separator
comma appears exactly when both `id` and `instance` are nonempty (the
instance itself is always printed); for the `group` meta-kind the
dir-and-source part is `source` or `destination` according to the
direction flag, else the direction prefix concatenated with the source
enum name. -/
theorem C4_tag_format_amended (sc : StatsCluster) (t : StatsCounterType)
    (hlive : sc.live_mask &&& 1 <<< t.toIdx ≠ 0)
    (hgrp : sc.source &&& SCS_SOURCE_MASK = SCS_GROUP →
      sc.source &&& SCS_SOURCE ≠ 0 ∨ sc.source &&& SCS_DESTINATION ≠ 0) :
    ∃ dirsrc, stats_get_direction_and_source_name sc.source = some dirsrc ∧
      (sc.source &&& SCS_SOURCE_MASK = SCS_GROUP →
        dirsrc = if sc.source &&& SCS_SOURCE ≠ 0 then "source" else "destination") ∧
      (sc.source &&& SCS_SOURCE_MASK ≠ SCS_GROUP →
        dirsrc = stats_get_direction_name sc.source ++ stats_get_source_name sc.source) ∧
      stats_log_format_counter sc t = .ok
        { name := stats_get_tag_name t,
          value := dirsrc ++ "(" ++ sc.id ++
            (if sc.id ≠ "" ∧ sc.instance_ ≠ "" then "," else "") ++ sc.instance_ ++
            ")=" ++ toString (sc.counters t) } := by
  have hsep : (if sc.id.isEmpty = false ∧ sc.instance_.isEmpty = false then "," else "")
      = (if ¬sc.id = "" ∧ ¬sc.instance_ = "" then "," else "") := by
    by_cases h1 : sc.id = "" <;> by_cases h2 : sc.instance_ = "" <;>
      simp [h1, h2, String.isEmpty_iff]
  by_cases hg : sc.source &&& SCS_SOURCE_MASK = SCS_GROUP
  · rcases hgrp hg with hsrc | hdst
    · refine ⟨"source", ?_, ?_, ?_, ?_⟩
      · simp [stats_get_direction_and_source_name, hg, hsrc]
      · intro _; simp [hsrc]
      · intro hc; exact absurd hg hc
      · simp [stats_log_format_counter, stats_get_direction_and_source_name, hg,
          hsrc, hsep]
    · by_cases hsrc : sc.source &&& SCS_SOURCE ≠ 0
      · refine ⟨"source", ?_, ?_, ?_, ?_⟩
        · simp [stats_get_direction_and_source_name, hg, hsrc]
        · intro _; simp [hsrc]
        · intro hc; exact absurd hg hc
        · simp [stats_log_format_counter, stats_get_direction_and_source_name, hg,
            hsrc, hsep]
      · refine ⟨"destination", ?_, ?_, ?_, ?_⟩
        · simp [stats_get_direction_and_source_name, hg, hsrc, hdst]
        · intro _; simp [hsrc]
        · intro hc; exact absurd hg hc
        · simp [stats_log_format_counter, stats_get_direction_and_source_name, hg,
            hsrc, hdst, hsep]
  · refine ⟨stats_get_direction_name sc.source ++ stats_get_source_name sc.source,
      ?_, ?_, ?_, ?_⟩
    · simp [stats_get_direction_and_source_name, hg]
    · intro hc; exact absurd hc hg
    · intro _; rfl
    · simp [stats_log_format_counter, stats_get_direction_and_source_name, hg, hsep]

/-- C5: starting from the empty registry, after any sequence of
registration and unregistration operations that runs without contract
violations, every cluster's `ref_cnt` equals the number of outstanding
registrations on that cluster (materialized registrations minus
effective unregistrations); in particular
`stats_register_associated_counter` increments `ref_cnt` by one and each
unregister decrements it by one. -/
theorem C5_refcnt_balance :
    (∀ (opts : Option StatsOptions) (ops : List StatsOp) (regs' : List StatsCluster),
      runOps opts ops [] = .ok regs' →
      ∀ sc ∈ regs', sc.ref_cnt = outstanding opts ops (keyOf sc)) ∧
    (∀ (regs : List StatsCluster) (k : ClusterKey) (ty : StatsCounterType)
      (r : RegisterResult) (c : StatsCluster), lookupCluster regs k = some c →
      stats_register_associated_counter true regs (some k) ty = .ok r →
      ∃ c', lookupCluster r.registry k = some c' ∧ c'.ref_cnt = c.ref_cnt + 1) ∧
    (∀ (regs : List StatsCluster) (src : Nat) (id inst : Option String)
      (ty : StatsCounterType) (hdl : CounterHandle) (r : UnregisterResult)
      (c : StatsCluster),
      lookupCluster regs (src, normalize id, normalize inst) = some c →
      stats_unregister_counter true regs src id inst ty (some hdl) = .ok r →
      ∃ c', lookupCluster r.registry (src, normalize id, normalize inst) = some c' ∧
        c'.ref_cnt = c.ref_cnt - 1) ∧
    (∀ (regs : List StatsCluster) (k : ClusterKey) (ty : StatsCounterType)
      (ctr : Option CounterHandle) (r : UnregisterResult) (c : StatsCluster),
      lookupCluster regs k = some c →
      stats_unregister_dynamic_counter true regs (some k) ty ctr = .ok r →
      ∃ c', lookupCluster r.registry k = some c' ∧ c'.ref_cnt = c.ref_cnt - 1) := by
  refine ⟨?_, ?_, ?_, ?_⟩
  · intro opts ops regs' hrun sc hsc
    have hbase : RegInv [] (fun _ => 0) :=
      ⟨List.Pairwise.nil, by simp, fun k _ => rfl⟩
    have hinv := runOps_inv ops hbase hrun
    have := hinv.refEq sc hsc
    simpa using this
  · intro regs k ty r c hl hok
    have hdyn : c.dynamic = true := by
      by_contra hc
      have hd : c.dynamic = false := by simpa using hc
      simp [stats_register_associated_counter, hl, hd] at hok
    simp [stats_register_associated_counter, hl, hdyn] at hok
    have h2 : lookupCluster
        (updateCluster k
          (fun c => { c with
            live_mask := c.live_mask ||| 1 <<< ty.toIdx, ref_cnt := c.ref_cnt + 1 })
          regs) k = some { c with
            live_mask := c.live_mask ||| 1 <<< ty.toIdx, ref_cnt := c.ref_cnt + 1 } := by
      apply lookupCluster_updateCluster_self _ hl
      intro sc
      rfl
    rw [← hok]
    exact ⟨_, h2, rfl⟩
  · intro regs src id inst ty hdl r c hl hok
    by_cases hcond : (c.live_mask &&& 1 <<< ty.toIdx ≠ 0 ∧ hdl = (keyOf c, ty))
    · simp [stats_unregister_counter, hl, hcond] at hok
      have h2 : lookupCluster
          (updateCluster (src, normalize id, normalize inst)
            (fun c => { c with ref_cnt := c.ref_cnt - 1 }) regs)
          (src, normalize id, normalize inst)
          = some { c with ref_cnt := c.ref_cnt - 1 } := by
        apply lookupCluster_updateCluster_self _ hl
        intro sc
        rfl
      rw [← hok]
      exact ⟨_, h2, rfl⟩
    · simp [stats_unregister_counter, hl, hcond] at hok
  · intro regs k ty ctr r c hl hok
    by_cases hcond : (c.live_mask &&& 1 <<< ty.toIdx ≠ 0 ∧ ctr = some ((k, ty) : CounterHandle))
    · simp [stats_unregister_dynamic_counter, hl, hcond] at hok
      have h2 : lookupCluster
          (updateCluster k (fun c => { c with ref_cnt := c.ref_cnt - 1 }) regs) k
          = some { c with ref_cnt := c.ref_cnt - 1 } := by
        apply lookupCluster_updateCluster_self _ hl
        intro sc
        rfl
      rw [← hok]
      exact ⟨_, h2, rfl⟩
    · simp [stats_unregister_dynamic_counter, hl, hcond] at hok

/-- C6 counterexample: `stats_register_dynamic_counter` on a key whose
existing cluster is static (`dynamic = false`) but has `ref_cnt = 0`
does not fail the `g_assert_not_reached` contract check: it succeeds and
silently converts the cluster to dynamic. -/
theorem C6_counterexample :
    c6_static.dynamic = false ∧
    lookupCluster [c6_static] (1, "a", "") = some c6_static ∧
    stats_register_dynamic_counter true none [c6_static] 0 1 (some "a") none .processed =
      .ok { ret := some { c6_static with dynamic := true, ref_cnt := 1 },
            counter := some (((1, "a", ""), .processed) : CounterHandle),
            new := some true,
            registry := [{ c6_static with dynamic := true, ref_cnt := 1 }] } ∧
    stats_register_dynamic_counter true none [c6_static] 0 1 (some "a") none .processed ≠
      .error () := by
  refine ⟨rfl, by decide, rfl, ?_⟩
  intro h
  rw [show stats_register_dynamic_counter true none [c6_static] 0 1 (some "a") none
      .processed =
    .ok { ret := some { c6_static with dynamic := true, ref_cnt := 1 },
          counter := some (((1, "a", ""), .processed) : CounterHandle),
          new := some true,
          registry := [{ c6_static with dynamic := true, ref_cnt := 1 }] } from rfl] at h
  cases h

/-- C6 (amended): a dynamic registration on a key whose existing
cluster is not dynamic is a fatal contract violation only when that
cluster has `ref_cnt ≠ 0`; when `ref_cnt = 0` the call succeeds and the
cluster is converted to dynamic. -/
theorem C6_static_mismatch_amended (opts : Option StatsOptions) (regs : List StatsCluster)
    (lvl : Int) (src : Nat) (id inst : Option String) (ty : StatsCounterType)
    (sc : StatsCluster) (hlev : stats_check_level opts lvl = true)
    (hl : lookupCluster regs (src, normalize id, normalize inst) = some sc)
    (hdyn : sc.dynamic = false) :
    (sc.ref_cnt ≠ 0 →
      stats_register_dynamic_counter true opts regs lvl src id inst ty = .error ()) ∧
    (sc.ref_cnt = 0 →
      ∃ r, stats_register_dynamic_counter true opts regs lvl src id inst ty = .ok r ∧
        (∀ c, r.ret = some c → c.dynamic = true)) := by
  constructor
  · intro href
    have hnew : (sc.ref_cnt == 0) = false := by simp [href]
    simp [stats_register_dynamic_counter, stats_add_counter, hlev, hl, hnew, hdyn]
  · intro href
    have hnew : (sc.ref_cnt == 0) = true := by simp [href]
    simp [stats_register_dynamic_counter, stats_add_counter, hlev, hl, hnew, hdyn]

/-- C7 counterexample: `stats_foreach_cluster_remove` invoked with the
registry lock not held does not fail with a contract violation; it
completes normally. -/
theorem C7_counterexample :
    stats_foreach_cluster_remove false ([] : List StatsCluster)
      (fun _ (s : Unit) => (false, s)) () ≠ .error () ∧
    stats_foreach_cluster_remove false ([] : List StatsCluster)
      (fun _ (s : Unit) => (false, s)) () = .ok ([], ()) := by
  constructor
  · intro h
    simp [stats_foreach_cluster_remove, stats_foreach_cluster_remove.go] at h
  · rfl

/-- C7 (amended): `stats_foreach_cluster` and `stats_foreach_counter`
fail with a contract violation when invoked while the registry lock is
not held; `stats_foreach_cluster_remove` performs no lock assertion and
never fails. -/
theorem C7_lock_assertions_amended {α σ : Type} (regs : List StatsCluster)
    (func : StatsCluster → α → α) (cfunc : StatsCluster → StatsCounterType → Nat → α → α)
    (rfunc : StatsCluster → σ → Bool × σ) (a : α) (s : σ) :
    stats_foreach_cluster false regs func a = .error () ∧
    stats_foreach_counter false regs cfunc a = .error () ∧
    stats_foreach_cluster_remove false regs rfunc s ≠ .error () := by
  refine ⟨rfl, rfl, ?_⟩
  intro h
  simp [stats_foreach_cluster_remove] at h

/-- C8: the effective timer frequency computed by `stats_timer_reinit`
equals `options.log_freq` when it is nonzero, and otherwise
`max 1 (options.lifetime / 2)` with integer division. -/
theorem C8_effective_timer_frequency (opts : StatsOptions) :
    stats_timer_reinit_freq opts =
      if opts.log_freq ≠ 0 then opts.log_freq else max 1 (opts.lifetime / 2) := by
  unfold stats_timer_reinit_freq
  by_cases h : opts.log_freq = 0
  · simp [h]
    by_cases h2 : opts.lifetime ≤ 1
    · simp [h2]
      omega
    · simp [h2]
      omega
  · simp [h]

/-- C9: a publish-and-prune pass with `options.log_freq = 0` emits no
`"Log statistics"` event record, removes exactly the clusters that a
pass with `log_freq > 0` (and the same lifetime) would remove with the
same pruning notice, and emits the pruning notice exactly when at least
one cluster was dropped. -/
theorem C9_publish_disabled_still_prunes (opts opts' : StatsOptions) (now : Int) (regs : List StatsCluster)
    (r0 : PublishResult) (h0 : opts.log_freq = 0) (hlt : opts'.lifetime = opts.lifetime)
    (hf : 0 < opts'.log_freq)
    (h : stats_publish_and_prune_counters opts now regs = .ok r0) :
    r0.logStatisticsEvent = none ∧
    (∃ r1, stats_publish_and_prune_counters opts' now regs = .ok r1 ∧
      r1.registry = r0.registry ∧ r1.pruneNotice = r0.pruneNotice) ∧
    (r0.pruneNotice.isSome ↔ r0.registry.length < regs.length) := by
  obtain ⟨st', hpl, hev, hnot⟩ := publish_ok_elim h
  have hev0 : r0.logStatisticsEvent = none := by
    rw [hev]
    simp [h0]
  refine ⟨hev0, ?_, ?_⟩
  · have hcongr : ∃ t2,
        prune_loop opts' now regs (publish_initial_state opts') = .ok (r0.registry, t2) ∧
        st'.oldest_counter = t2.oldest_counter ∧
        st'.dropped_counters = t2.dropped_counters :=
      prune_loop_congr hlt.symm (by simp [publish_initial_state])
        (by simp [publish_initial_state]) hpl
    obtain ⟨t2, hpl2, hto, htd⟩ := hcongr
    refine ⟨_, publish_ok_intro hpl2, rfl, ?_⟩
    simp only [hnot, ← hto, ← htd]
  · have hdrop := prune_loop_dropped hpl
    have hlen : r0.registry.length ≤ regs.length := by
      have := prune_loop_ok_registry hpl
      rw [this]
      exact List.length_filter_le _ regs
    rw [hnot]
    simp only [publish_initial_state] at hdrop
    by_cases hgt : st'.dropped_counters > 0
    · simp only [hgt, if_true, Option.isSome_some, true_iff]
      simp at hdrop
      omega
    · simp only [hgt, if_false, Option.isSome_none]
      simp at hdrop
      simp
      omega

/-- C10: with no options structure installed, `stats_check_level`
accepts exactly declared level 0: registration at level 0 creates the
cluster and returns a handle, while any declared level greater than 0
yields a NULL handle and an unchanged registry. -/
theorem C10_null_options_level_gate :
    (∀ lvl : Int, stats_check_level none lvl = (lvl == 0)) ∧
    (∀ (regs : List StatsCluster) (src : Nat) (id inst : Option String)
      (ty : StatsCounterType),
      ∃ r, stats_register_counter true none regs 0 src id inst ty = .ok r ∧
        r.counter = some ((src, normalize id, normalize inst), ty) ∧
        (lookupCluster r.registry (src, normalize id, normalize inst)).isSome) ∧
    (∀ (regs : List StatsCluster) (lvl : Int) (src : Nat) (id inst : Option String)
      (ty : StatsCounterType), 0 < lvl →
      stats_register_counter true none regs lvl src id inst ty =
        .ok { counter := none, registry := regs }) := by
  refine ⟨fun lvl => rfl, ?_, ?_⟩
  · intro regs src id inst ty
    have hlev : stats_check_level none 0 = true := rfl
    cases hl : lookupCluster regs (src, normalize id, normalize inst) with
    | none =>
        have heq : stats_register_counter true none regs 0 src id inst ty = .ok
            { counter := some ((src, normalize id, normalize inst), ty),
              registry := { newCluster src (normalize id) (normalize inst) with
                live_mask := 0 ||| 1 <<< ty.toIdx } :: regs } := by
          simp [stats_register_counter, stats_add_counter, hlev, hl, updateCluster,
            keyOf_newCluster, keyOf, newCluster]
        refine ⟨_, heq, rfl, ?_⟩
        simp [lookupCluster, keyOf]
        exact Or.inl ⟨rfl, rfl, rfl⟩
    | some c =>
        have hkey : keyOf c = (src, normalize id, normalize inst) :=
          keyOf_of_lookupCluster_some hl
        have heq : stats_register_counter true none regs 0 src id inst ty = .ok
            { counter := some ((src, normalize id, normalize inst), ty),
              registry := updateCluster (src, normalize id, normalize inst)
                (fun c => { c with live_mask := c.live_mask ||| 1 <<< ty.toIdx })
                (updateCluster (src, normalize id, normalize inst)
                  (fun c => { c with ref_cnt := c.ref_cnt + 1 }) regs) } := by
          simp [stats_register_counter, stats_add_counter, hlev, hl,
            keyOf_set_ref, hkey]
        refine ⟨_, heq, rfl, ?_⟩
        have h2 : lookupCluster
            (updateCluster (src, normalize id, normalize inst)
              (fun c => { c with ref_cnt := c.ref_cnt + 1 }) regs)
            (src, normalize id, normalize inst) = some { c with ref_cnt := c.ref_cnt + 1 } := by
          apply lookupCluster_updateCluster_self _ hl
          intro sc
          rfl
        have h3 : lookupCluster
            (updateCluster (src, normalize id, normalize inst)
              (fun c => { c with live_mask := c.live_mask ||| 1 <<< ty.toIdx })
              (updateCluster (src, normalize id, normalize inst)
                (fun c => { c with ref_cnt := c.ref_cnt + 1 }) regs))
            (src, normalize id, normalize inst)
            = some { c with
                ref_cnt := c.ref_cnt + 1, live_mask := c.live_mask ||| 1 <<< ty.toIdx } := by
          apply lookupCluster_updateCluster_self _ h2
          intro sc
          rfl
        simp only [h3, Option.isSome_some]
  · intro regs lvl src id inst ty hlvl
    have hlev : stats_check_level none lvl = false := by
      simp [stats_check_level]
      omega
    simp [stats_register_counter, stats_add_counter, hlev]

/-- C10 witness: with no options installed, registering at declared
level 1 yields a NULL handle and leaves the empty registry empty. -/
theorem C10_witness :
    (0 : Int) < 1 ∧
    stats_register_counter true none [] 1 1 (some "a") none .processed =
      .ok { counter := none, registry := [] } :=
  ⟨by decide, C10_null_options_level_gate.2.2 [] 1 1 (some "a") none .processed (by decide)⟩

/-- C1 witness: a publish pass over a registry holding one static
cluster keeps that cluster. -/
theorem C1_witness : w_cluster ∈ w_r1.registry :=
  (C1_prune_pass_removes_iff_expired w_options 0 [w_cluster] w_r1 rfl).2
    w_cluster (by simp) rfl

/-- C3 witness: re-registering the orphaned dynamic cluster `w_dyn`
revives it with `ref_cnt = 1`, preserved `live_mask` bits and
`new = true`. -/
theorem C3_witness : ∃ r sc',
    stats_register_dynamic_counter true none [w_dyn] 0 2 (some "b") none .stamp =
      .ok r ∧
    r.ret = some sc' ∧ keyOf sc' = keyOf w_dyn ∧ sc'.ref_cnt = 1 ∧
    (∀ i, w_dyn.live_mask.testBit i = true → sc'.live_mask.testBit i = true) ∧
    r.new = some true :=
  C3_reregistration_revives.1 none [w_dyn] 0 2 (some "b") none .stamp w_dyn
    rfl rfl rfl

/-- C4 witness: the destination-file cluster `w_file` publishes its
`Processed` tag in the amended shape. -/
theorem C4_witness : ∃ dirsrc,
    stats_get_direction_and_source_name w_file.source = some dirsrc ∧
    (w_file.source &&& SCS_SOURCE_MASK = SCS_GROUP →
      dirsrc = if w_file.source &&& SCS_SOURCE ≠ 0 then "source" else "destination") ∧
    (w_file.source &&& SCS_SOURCE_MASK ≠ SCS_GROUP →
      dirsrc = stats_get_direction_name w_file.source ++
        stats_get_source_name w_file.source) ∧
    stats_log_format_counter w_file .processed = .ok
      { name := stats_get_tag_name .processed,
        value := dirsrc ++ "(" ++ w_file.id ++
          (if w_file.id ≠ "" ∧ w_file.instance_ ≠ "" then "," else "") ++
          w_file.instance_ ++ ")=" ++ toString (w_file.counters .processed) } :=
  C4_tag_format_amended w_file .processed (by decide) (by decide)

/-- C5 witness: after the one-registration trace `w_ops`, the resulting
cluster's `ref_cnt` equals its outstanding-registration count. -/
theorem C5_witness : w_registered.ref_cnt = outstanding none w_ops (keyOf w_registered) :=
  C5_refcnt_balance.1 none w_ops [w_registered] rfl w_registered (by simp)

/-- C6 witness: on the static `ref_cnt = 0` cluster `c6_static`, the
amended claim's revival branch applies. -/
theorem C6_witness : ∃ r,
    stats_register_dynamic_counter true none [c6_static] 0 1 (some "a") none
      .processed = .ok r ∧
    (∀ c, r.ret = some c → c.dynamic = true) :=
  (C6_static_mismatch_amended none [c6_static] 0 1 (some "a") none .processed
    c6_static rfl rfl rfl).2 rfl

/-- C7 witness: the two asserting iteration helpers fail on the unlocked
empty registry while the remove helper completes. -/
theorem C7_witness :
    stats_foreach_cluster false ([] : List StatsCluster) (fun _ (a : Nat) => a) 0 =
      .error () ∧
    stats_foreach_counter false ([] : List StatsCluster) (fun _ _ _ (a : Nat) => a) 0 =
      .error () ∧
    stats_foreach_cluster_remove false ([] : List StatsCluster)
      (fun _ (s : Unit) => (false, s)) () ≠ .error () :=
  C7_lock_assertions_amended [] (fun _ a => a) (fun _ _ _ a => a)
    (fun _ s => (false, s)) 0 ()

/-- C9 witness: over `[w_cluster]`, the non-publishing pass emits no
event, and the publishing pass leaves the same registry and notice. -/
theorem C9_witness :
    w_r0.logStatisticsEvent = none ∧
    (∃ r1, stats_publish_and_prune_counters w_options 0 [w_cluster] = .ok r1 ∧
      r1.registry = w_r0.registry ∧ r1.pruneNotice = w_r0.pruneNotice) ∧
    (w_r0.pruneNotice.isSome ↔
      w_r0.registry.length < ([w_cluster] : List StatsCluster).length) :=
  C9_publish_disabled_still_prunes w_options0 w_options 0 [w_cluster] w_r0
    rfl rfl (by decide) rfl

end SyslogStats
